import Mathlib

/-!
Verification of the pixel-buffer and material utilities of the
material-combiner addon (src/utils/images.py, src/utils/materials.py,
src/utils/ctypes_imbuf_utils.py).

Pixel buffers are numpy float32 ndarrays in the source; here they are
modelled as a shape triple together with an indexing function into real
(respectively rational or natural) values.  Python exceptions are modelled
with an explicit error type carried by Except.
-/

set_option maxHeartbeats 1000000

/-- Python exception kinds raised by the embedded functions. -/
inductive PyErr where
  | typeError (msg : String)
  | runtimeError (msg : String)
  | valueError (msg : String)
  | attributeError (msg : String)
  deriving DecidableEq

/-- A 3-D ndarray: shape (xLen, yLen, cLen) plus an indexing function.
Reads outside the shape are irrelevant junk, as for a raw memory view. -/
structure PixelBuffer (α : Type) where
  xLen : Nat
  yLen : Nat
  cLen : Nat
  get : Nat → Nat → Nat → α

/-- The view buffer[:, ::-1, :]: same shape, second axis reversed. -/
def flipY {α : Type} (b : PixelBuffer α) : PixelBuffer α :=
  { b with
    get := fun i j k => b.get i (b.yLen - 1 - j) k }

/-- buffer.ravel(): the C-order flattening of a (xLen, yLen, cLen) ndarray. -/
def ravel {α : Type} (b : PixelBuffer α) : List α :=
  (List.range (b.xLen * b.yLen * b.cLen)).map
    (fun i => b.get (i / (b.yLen * b.cLen)) ((i % (b.yLen * b.cLen)) / b.cLen) (i % b.cLen))

/- ---------------------------------------------------------------------
sRGB / linear conversion, from buffer_convert_linear_to_srgb and
buffer_convert_srgb_to_linear in src/utils/images.py.  Each function takes
the view buffer[:, :, :3] (channel indices below min 3 cLen), computes the
mask is_small from the original values, writes the small branch through the
mask (with np.where clamping negatives to zero), then writes the remaining
elements through the inverted mask.  The two passes are kept separate here,
with the second pass reading the buffer produced by the first pass and both
masks computed from the original buffer, exactly as the numpy code does.
--------------------------------------------------------------------- -/

/-- First masked assignment of buffer_convert_srgb_to_linear:
rgb_only_view[is_small] = np.where(small_rgb < 0.0, 0, small_rgb / 12.92). -/
noncomputable def srgb_to_linear_small_pass (b : PixelBuffer ℝ) : PixelBuffer ℝ :=
  { b with
    get := fun x y ch =>
      if ch < min 3 b.cLen ∧ b.get x y ch < 0.04045 then
        (if b.get x y ch < 0 then 0 else b.get x y ch / 12.92)
      else b.get x y ch }

/-- buffer_convert_srgb_to_linear: the small pass followed by the masked
assignment through the inverted mask,
rgb_only_view[is_not_small] = ((rgb_only_view[is_not_small] + 0.055) / 1.055) ** 2.4. -/
noncomputable def buffer_convert_srgb_to_linear (b : PixelBuffer ℝ) : PixelBuffer ℝ :=
  { srgb_to_linear_small_pass b with
    get := fun x y ch =>
      if ch < min 3 b.cLen ∧ ¬ (b.get x y ch < 0.04045) then
        (((srgb_to_linear_small_pass b).get x y ch + 0.055) / 1.055) ^ (2.4 : ℝ)
      else (srgb_to_linear_small_pass b).get x y ch }

/-- First masked assignment of buffer_convert_linear_to_srgb:
rgb_only_view[is_small] = np.where(small_rgb < 0.0, 0, small_rgb * 12.92). -/
noncomputable def linear_to_srgb_small_pass (b : PixelBuffer ℝ) : PixelBuffer ℝ :=
  { b with
    get := fun x y ch =>
      if ch < min 3 b.cLen ∧ b.get x y ch < 0.0031308 then
        (if b.get x y ch < 0 then 0 else b.get x y ch * 12.92)
      else b.get x y ch }

/-- buffer_convert_linear_to_srgb: the small pass followed by
rgb_only_view[is_not_small] = 1.055 * (rgb_only_view[is_not_small] ** (1.0 / 2.4)) - 0.055. -/
noncomputable def buffer_convert_linear_to_srgb (b : PixelBuffer ℝ) : PixelBuffer ℝ :=
  { linear_to_srgb_small_pass b with
    get := fun x y ch =>
      if ch < min 3 b.cLen ∧ ¬ (b.get x y ch < 0.0031308) then
        1.055 * ((linear_to_srgb_small_pass b).get x y ch ^ ((1 : ℝ) / 2.4)) - 0.055
      else (linear_to_srgb_small_pass b).get x y ch }

/-- The per-channel sRGB-to-linear formula as the specification states it:
negative values clamp to zero before conversion, then the piecewise map. -/
noncomputable def srgb_to_linear_formula (c : ℝ) : ℝ :=
  if max c 0 < 0.04045 then max c 0 / 12.92
  else ((max c 0 + 0.055) / 1.055) ^ (2.4 : ℝ)

/-- The per-channel linear-to-sRGB formula as the specification states it:
negative values clamp to zero before conversion, then the piecewise map. -/
noncomputable def linear_to_srgb_formula (c : ℝ) : ℝ :=
  if max c 0 < 0.0031308 then 12.92 * max c 0
  else 1.055 * (max c 0) ^ ((1 : ℝ) / 2.4) - 0.055

/- ---------------------------------------------------------------------
Images (bpy.types.Image) and the pixel getters of src/utils/images.py.
--------------------------------------------------------------------- -/

/-- A host image: size, channel count, colorspace name and its flat pixel
data, in the order img.pixels.foreach_get copies it out. -/
structure Image where
  width : Nat
  height : Nat
  channels : Nat
  colorspace : String
  pixels : List ℝ

/-- Modelled from the spec: the host (Blender) stores Image.pixels with a
bottom-left origin, row by row from the bottom row upward, x fastest and
channels innermost; this definition gives the host pixel at column x, row
yFromBottom, channel c of that flat data. -/
def hostPixel (img : Image) (x yFromBottom c : Nat) : ℝ :=
  img.pixels.getD ((yFromBottom * img.width + x) * img.channels + c) 0

/-- The buffer of get_pixel_buffer before the y-flip: the flat foreach_get
data viewed with buffer.shape = (width, height, channels). -/
def image_reshaped (img : Image) : PixelBuffer ℝ :=
  { xLen := img.width, yLen := img.height, cLen := img.channels,
    get := fun i j k => img.pixels.getD ((i * img.height + j) * img.channels + k) 0 }

/-- linear_colorspaces = the set of colorspace names treated as linear. -/
def linear_colorspaces : List String := ["Linear", "Non-color", "Raw"]

/-- supported_colorspaces = linear_colorspaces together with sRGB. -/
def supported_colorspaces : List String := linear_colorspaces ++ ["sRGB"]

/-- get_pixel_buffer(img, atlas_colorspace): reads the flat pixels, reshapes
to (width, height, channels), flips the second axis, then branches on the
atlas and image colorspaces.  The branch where atlas_colorspace is linear
and the image colorspace is unsupported falls off the end of the Python
function, which returns None. -/
noncomputable def get_pixel_buffer (img : Image) (atlas_colorspace : String) :
    Except PyErr (Option (PixelBuffer ℝ)) :=
  let buffer := flipY (image_reshaped img)
  let img_color_space := img.colorspace
  if atlas_colorspace = "sRGB" then
    if img_color_space = "sRGB" then
      .ok (some buffer)
    else if img_color_space ∈ linear_colorspaces then
      .ok (some (buffer_convert_srgb_to_linear buffer))
    else
      .error (.typeError "Unsupported image colorspace")
  else if atlas_colorspace ∈ linear_colorspaces then
    if img_color_space ∈ linear_colorspaces then
      .ok (some buffer)
    else if img_color_space = "sRGB" then
      .ok (some (buffer_convert_linear_to_srgb buffer))
    else
      .ok none
  else
    .error (.typeError "Unsupported atlas colorspace")

/-- get_resized_pixel_buffer(img, size): copies the image, scales the copy,
gets the pixel buffer of the copy and removes the copy.  The host scaling
resample is abstracted as scaleFn (it only affects the copy).  The Python
function has no return statement, so the computed buffer is dropped and
None is returned; the second component lists the images this call added to
bpy.data.images that still exist on return (the copy leaks only if
get_pixel_buffer raised before the copy was removed). -/
noncomputable def get_resized_pixel_buffer (scaleFn : Image → Nat → Nat → List ℝ)
    (img : Image) (size : Nat × Nat) :
    Except PyErr (Option (PixelBuffer ℝ)) × List Image :=
  let copy : Image := img
  let scaled : Image :=
    { copy with width := size.1, height := size.2, pixels := scaleFn copy size.1 size.2 }
  match get_pixel_buffer scaled "sRGB" with
  | .error e => (.error e, [scaled])
  | .ok _buffer => (.ok none, [])

/-- write_pixel_buffer(img, buffer): writes the raveled buffer into the
image pixels when the buffer shape matches (width, height, channels) and
raises RuntimeError otherwise (foreach_set is only reached in the matching
branch, so on the error path the image is untouched). -/
def write_pixel_buffer (img : Image) (b : PixelBuffer ℝ) : Except PyErr Image :=
  if (b.xLen, b.yLen, b.cLen) = (img.width, img.height, img.channels) then
    .ok { img with pixels := ravel b }
  else
    .error (.runtimeError "Buffer shape does not match image shape")

/-- new_pixel_buffer(size, color): a (width, height, channels) buffer filled
with the colour, viewed with the second axis flipped; raises TypeError when
the colour has zero or more than four components. -/
def new_pixel_buffer (size : Nat × Nat) (color : List ℝ) :
    Except PyErr (PixelBuffer ℝ) :=
  if color.length > 4 ∨ color.length = 0 then
    .error (.typeError "A color can have between 1 and 4 (inclusive) components")
  else
    .ok (flipY
      { xLen := size.1, yLen := size.2, cLen := color.length,
        get := fun _ _ k => color.getD k 0 })

/- ---------------------------------------------------------------------
pixel_buffer_paste and fit_box from src/utils/images.py, with numpy basic
slicing semantics: a slice index is wrapped when negative and clamped to
the axis length, and an assignment broadcasts a source axis extent onto the
destination extent only when they are equal or the source extent is 1,
raising ValueError otherwise.
--------------------------------------------------------------------- -/

/-- A cartesian box (left, upper, right, lower) of Int coordinates. -/
structure BoxI where
  left : Int
  upper : Int
  right : Int
  lower : Int
  deriving DecidableEq

/-- A normalized index rectangle: x slice [xs, xe), y slice [ys, ye). -/
structure Rect where
  xs : Nat
  xe : Nat
  ys : Nat
  ye : Nat
  deriving DecidableEq

/-- Numpy normalization of one slice bound on an axis of length n:
negative indices count from the end, and bounds clamp into [0, n]. -/
def npIdx (v : Int) (n : Nat) : Nat :=
  if v < 0 then ((n : Int) + v).toNat else min v.toNat n

/-- fit_box from pixel_buffer_paste: clamps left and upper to 0 and clamps
right and lower to shape[0] + 1 and shape[1] + 1 respectively. -/
def fit_box {α : Type} (target : PixelBuffer α) (box : BoxI) : BoxI :=
  { left := max box.left 0,
    upper := max box.upper 0,
    right := min box.right ((target.xLen : Int) + 1),
    lower := min box.lower ((target.yLen : Int) + 1) }

/-- The destination index rectangle of a paste: the fitted box, normalized
onto the target axes as numpy slices. -/
def dest_rect {α : Type} (target : PixelBuffer α) (box : BoxI) : Rect :=
  let f := fit_box target box
  { xs := npIdx f.left target.xLen, xe := npIdx f.right target.xLen,
    ys := npIdx f.upper target.yLen, ye := npIdx f.lower target.yLen }

/-- The source index rectangle of a buffer paste: source_left = fit_left -
left, source_upper = fit_upper - upper, source_right = source width - right
+ fit_right, source_lower = source height - lower + fit_lower, normalized
onto the source axes as numpy slices. -/
def src_rect {α : Type} (target source : PixelBuffer α) (box : BoxI) : Rect :=
  let f := fit_box target box
  { xs := npIdx (f.left - box.left) source.xLen,
    xe := npIdx ((source.xLen : Int) - box.right + f.right) source.xLen,
    ys := npIdx (f.upper - box.upper) source.yLen,
    ye := npIdx ((source.yLen : Int) - box.lower + f.lower) source.yLen }

/-- Membership of a pixel coordinate in a normalized rectangle. -/
def inRect (d : Rect) (x y : Nat) : Prop :=
  d.xs ≤ x ∧ x < d.xe ∧ d.ys ≤ y ∧ y < d.ye

instance (d : Rect) (x y : Nat) : Decidable (inRect d x y) := by
  unfold inRect; infer_instance

/-- The source argument of pixel_buffer_paste: a 3-D ndarray sub-image, a
1-D ndarray holding one pixel, or a Python tuple or list holding one pixel. -/
inductive PasteSource (α : Type) where
  | ndarray3 (b : PixelBuffer α)
  | ndarray1 (vals : List α)
  | pyseq (vals : List α)

/-- The number of channels the source supplies. -/
def numSourceChannels {α : Type} : PasteSource α → Nat
  | .ndarray3 b => b.cLen
  | .ndarray1 vals => vals.length
  | .pyseq vals => vals.length

/-- target_buffer[left:right, upper:lower, :len(pixel)] = pixel, for a
single pixel colour: the box is fitted, normalized, and the 1-D source of
length n broadcasts onto channel extent min n cLen when n equals that
extent or n is 1. -/
def paste_pixel_vals {α : Type} [Inhabited α] (target : PixelBuffer α)
    (vals : List α) (box : BoxI) : Except PyErr (PixelBuffer α) :=
  let d := dest_rect target box
  let n := vals.length
  if n = min n target.cLen ∨ n = 1 then
    .ok { target with
          get := fun x y c =>
            if inRect d x y ∧ c < min n target.cLen then
              vals.getD (if n = 1 then 0 else c) default
            else target.get x y c }
  else
    .error (.valueError "could not broadcast input array")

/-- target_buffer[fit_left:fit_right, fit_upper:fit_lower, :channels] =
source_buffer[source_left:source_right, source_upper:source_lower], guarded
by the channel-count check of the Python code; each spatial axis must
broadcast (equal extents, or source extent 1). -/
def paste_buffer {α : Type} (target source : PixelBuffer α) (box : BoxI) :
    Except PyErr (PixelBuffer α) :=
  if source.cLen ≤ target.cLen then
    let d := dest_rect target box
    let s := src_rect target source box
    if (s.xe - s.xs = d.xe - d.xs ∨ s.xe - s.xs = 1) ∧
       (s.ye - s.ys = d.ye - d.ys ∨ s.ye - s.ys = 1) then
      .ok { target with
            get := fun x y c =>
              if inRect d x y ∧ c < source.cLen then
                source.get (s.xs + (if s.xe - s.xs = 1 then 0 else x - d.xs))
                  (s.ys + (if s.ye - s.ys = 1 then 0 else y - d.ys)) c
              else target.get x y c }
    else
      .error (.valueError "could not broadcast input array")
  else
    .error (.typeError "Pixels in source have more channels than pixels in target")

/-- The box a paste call works with: a 2-element corner places the source
buffer by its top-left corner, a 4-element sequence is the box itself. -/
def paste_box {α : Type} (src : PasteSource α) (corner_or_box : List Int) : BoxI :=
  match src, corner_or_box with
  | .ndarray3 b, [l, u] => ⟨l, u, l + (b.xLen : Int), u + (b.yLen : Int)⟩
  | _, [l, u, r, lo] => ⟨l, u, r, lo⟩
  | _, _ => ⟨0, 0, 0, 0⟩

/-- pixel_buffer_paste(target_buffer, source_buffer_or_pixel,
corner_or_box), following the Python control flow: source parsing (the 1-D
ndarray check compares the target channel count against the number 1 of
source dimensions, the sequence check against the pixel length), then the
pixel fill or the sub-image copy. -/
def pixel_buffer_paste {α : Type} [Inhabited α] (target : PixelBuffer α)
    (src : PasteSource α) (corner_or_box : List Int) :
    Except PyErr (PixelBuffer α) :=
  match src with
  | .ndarray3 b =>
    match corner_or_box with
    | [l, u] => paste_buffer target b ⟨l, u, l + (b.xLen : Int), u + (b.yLen : Int)⟩
    | [l, u, r, lo] => paste_buffer target b ⟨l, u, r, lo⟩
    | _ => .error (.typeError "corner or box must be either a 2-tuple or 4-tuple")
  | .ndarray1 vals =>
    if 1 ≤ target.cLen then
      match corner_or_box with
      | [l, u, r, lo] => paste_pixel_vals target vals ⟨l, u, r, lo⟩
      | _ => .error (.typeError "When pasting a pixel color, a box region to paste to must be supplied")
    else
      .error (.typeError "source buffer or pixel could not be parsed for pasting")
  | .pyseq vals =>
    if vals.length ≤ target.cLen then
      match corner_or_box with
      | [l, u, r, lo] => paste_pixel_vals target vals ⟨l, u, r, lo⟩
      | _ => .error (.typeError "When pasting a pixel color, a box region to paste to must be supplied")
    else
      .error (.typeError "source pixel could not be parsed for pasting")

/-- A property of the success value of an Except computation. -/
def onOk {ε β : Type} (e : Except ε β) (p : β → Prop) : Prop :=
  match e with
  | .ok r => p r
  | .error _ => True

/- ---------------------------------------------------------------------
sort_materials from src/utils/materials.py.  The sort key comes from
MaterialSource.from_material(mat).to_sort_key(mat.smc_diffuse); the module
material_source.py that defines MaterialSource is not part of the sources
at hand, so the key derivation is modelled from the spec.  The function
clears root_mat on every material first (no effect on the grouping) and
then appends each material of the input list to a defaultdict(list) entry
under its sort key.
--------------------------------------------------------------------- -/

/-- A material: an identifying name, the shader-graph source
classification, and the smc_diffuse flag. -/
structure Material where
  name : String
  sourceClass : Nat
  smc_diffuse : Bool
  deriving DecidableEq

/-- Modelled from the spec: MaterialSource.from_material (defined in the
missing module material_source.py) classifies the shader-graph source of a
material; the classification is carried as an abstract tag on the
material. -/
def MaterialSource.from_material (m : Material) : Nat :=
  m.sourceClass

/-- Modelled from the spec: MaterialSource.to_sort_key (defined in the
missing module material_source.py) derives the sort key from the source
classification together with the diffuse flag. -/
def MaterialSource.to_sort_key (source : Nat) (diffuse : Bool) : Nat × Bool :=
  (source, diffuse)

/-- The sort key sort_materials uses for one material. -/
def material_sort_key (m : Material) : Nat × Bool :=
  MaterialSource.to_sort_key (MaterialSource.from_material m) m.smc_diffuse

/-- defaultdict(list) append: extend the group of key k with m, creating
the group at the end when the key is new. -/
def dict_append (d : List ((Nat × Bool) × List Material)) (k : Nat × Bool)
    (m : Material) : List ((Nat × Bool) × List Material) :=
  match d with
  | [] => [(k, [m])]
  | (k0, g) :: rest =>
    if k0 = k then (k0, g ++ [m]) :: rest else (k0, g) :: dict_append rest k m

/-- Lookup of a group, empty when the key is absent. -/
def dict_get (d : List ((Nat × Bool) × List Material)) (k : Nat × Bool) :
    List Material :=
  match d with
  | [] => []
  | (k0, g) :: rest => if k0 = k then g else dict_get rest k

/-- The keys of the grouped mapping, in insertion order. -/
def dict_keys : List ((Nat × Bool) × List Material) → List (Nat × Bool)
  | [] => []
  | (k0, _) :: rest => k0 :: dict_keys rest

/-- All grouped materials, group by group. -/
def dict_values (d : List ((Nat × Bool) × List Material)) : List Material :=
  match d with
  | [] => []
  | (_, g) :: rest => g ++ dict_values rest

/-- sort_materials(mat_list): appends every material of the list to the
group of its sort key, in input order. -/
def sort_materials (mat_list : List Material) :
    List ((Nat × Bool) × List Material) :=
  mat_list.foldl (fun d mat => dict_append d (material_sort_key mat) mat) []

/- ---------------------------------------------------------------------
numpy_pixels_to_file from src/utils/ctypes_imbuf_utils.py.
--------------------------------------------------------------------- -/

/-- The fields of the mirrored C ImBuf struct that numpy_pixels_to_file
touches; rect abstracts the pointer value. -/
structure CImBuf where
  x : Int
  y : Int
  planes : Nat
  channels : Int
  rect : Nat
  deriving DecidableEq

/-- unit_float_to_uchar_clamp as vectorized in numpy_pixels_to_file:
np.select([v <= 0, v > 1 - 0.5/255], [0, 255], default 255*v + 0.5), then
astype(np.ubyte) truncation (the selected values are nonnegative). -/
def unit_float_to_uchar_clamp (v : ℚ) : Nat :=
  if v ≤ 0 then 0
  else if v > 1 - 1 / 2 / 255 then 255
  else (⌊255 * v + 1 / 2⌋).toNat

/-- The pixel_buffer argument of numpy_pixels_to_file: an ubyte ndarray, a
float32 (np.single) ndarray, or an ndarray of any other dtype. -/
inductive PixelsArray where
  | ubyte (b : PixelBuffer Nat)
  | single (b : PixelBuffer ℚ)
  | other

/-- The tail of numpy_pixels_to_file once an ubyte buffer is at hand: the
channel-count checks, then imbuf.new((1, 1)) (whose ImBuf state is the
imbuf_new argument), the read of old_channels, and then the line
old_rect = c_image_buffer.rect.content.  A ctypes pointer has no attribute
named content (the attribute is contents), so that read raises
AttributeError before the try block is entered: no pixel data is written
anywhere and no ImBuf field is assigned.  The result carries the outcome,
the ImBuf state on return, and whether a file was written. -/
def numpy_pixels_to_file_ubyte (b : PixelBuffer Nat) (imbuf_new : CImBuf) :
    Except PyErr Unit × CImBuf × Bool :=
  if b.cLen ≠ 4 then
    if b.cLen > 4 then
      (.error (.typeError "Too many channels"), imbuf_new, false)
    else
      (.error (.runtimeError "Padding channels up to 4 is not implemented"), imbuf_new, false)
  else
    (.error (.attributeError "LP_c_uint object has no attribute content"), imbuf_new, false)

/-- Python str.endswith as a suffix test on the character data. -/
def ends_with_py (s suffix : String) : Bool :=
  suffix.data.isSuffixOf s.data

/-- numpy_pixels_to_file(pixel_buffer, filepath): the png check, the dtype
dispatch (float32 data converts through unit_float_to_uchar_clamp), then
the ubyte tail above. -/
def numpy_pixels_to_file (arr : PixelsArray) (filepath : String)
    (imbuf_new : CImBuf) : Except PyErr Unit × CImBuf × Bool :=
  if ¬ ends_with_py filepath ".png" then
    (.error (.typeError "Only png is currently supported"), imbuf_new, false)
  else
    match arr with
    | .ubyte b => numpy_pixels_to_file_ubyte b imbuf_new
    | .single b =>
      numpy_pixels_to_file_ubyte
        { b with get := fun i j k => unit_float_to_uchar_clamp (b.get i j k) }
        imbuf_new
    | .other => (.error (.typeError "Invalid pixel_buffer dtype"), imbuf_new, false)

/-- The value a successful get_pixel_buffer result holds at an index, or
none when the call raised or returned None. -/
noncomputable def bufferAt (e : Except PyErr (Option (PixelBuffer ℝ)))
    (x y c : Nat) : Option ℝ :=
  match e with
  | .ok (some b) => some (b.get x y c)
  | _ => none

/- ---------------------------------------------------------------------
Theorems.
--------------------------------------------------------------------- -/

/-- Claim C1: for every pixel buffer, buffer_convert_srgb_to_linear maps
each RGB channel value c to c/12.92 when c < 0.04045 and to
((c+0.055)/1.055)^2.4 otherwise, buffer_convert_linear_to_srgb maps c to
12.92*c when c < 0.0031308 and to 1.055*c^(1/2.4) - 0.055 otherwise, and
in both directions negative channel values clamp to zero before
conversion. -/
theorem buffer_convert_channel_formulas (b : PixelBuffer ℝ) (x y ch : Nat)
    (h3 : ch < 3) (hcl : ch < b.cLen) :
    (buffer_convert_srgb_to_linear b).get x y ch
      = srgb_to_linear_formula (b.get x y ch) ∧
    (buffer_convert_linear_to_srgb b).get x y ch
      = linear_to_srgb_formula (b.get x y ch) := by
  have hm : ch < min 3 b.cLen := lt_min h3 hcl
  constructor
  · by_cases hs : b.get x y ch < 0.04045
    · have h2 : ¬ (ch < min 3 b.cLen ∧ ¬ (b.get x y ch < 0.04045)) :=
        fun h => h.2 hs
      by_cases hneg : b.get x y ch < 0
      · have hmax : max (b.get x y ch) 0 = 0 := max_eq_right hneg.le
        simp only [buffer_convert_srgb_to_linear, srgb_to_linear_small_pass,
          srgb_to_linear_formula, if_neg h2, if_pos (And.intro hm hs),
          if_pos hneg, hmax]
        rw [if_pos (by norm_num : (0 : ℝ) < 0.04045)]
        norm_num
      · have hmax : max (b.get x y ch) 0 = b.get x y ch :=
          max_eq_left (not_lt.mp hneg)
        simp only [buffer_convert_srgb_to_linear, srgb_to_linear_small_pass,
          srgb_to_linear_formula, if_neg h2, if_pos (And.intro hm hs),
          if_neg hneg, hmax, if_pos hs]
    · have h1 : ¬ (ch < min 3 b.cLen ∧ b.get x y ch < 0.04045) :=
        fun h => hs h.2
      have hge : (0 : ℝ) ≤ b.get x y ch :=
        le_trans (by norm_num) (not_lt.mp hs)
      have hmax : max (b.get x y ch) 0 = b.get x y ch := max_eq_left hge
      simp only [buffer_convert_srgb_to_linear, srgb_to_linear_small_pass,
        srgb_to_linear_formula, if_pos (And.intro hm hs), if_neg h1, hmax,
        if_neg hs]
  · by_cases hs : b.get x y ch < 0.0031308
    · have h2 : ¬ (ch < min 3 b.cLen ∧ ¬ (b.get x y ch < 0.0031308)) :=
        fun h => h.2 hs
      by_cases hneg : b.get x y ch < 0
      · have hmax : max (b.get x y ch) 0 = 0 := max_eq_right hneg.le
        simp only [buffer_convert_linear_to_srgb, linear_to_srgb_small_pass,
          linear_to_srgb_formula, if_neg h2, if_pos (And.intro hm hs),
          if_pos hneg, hmax]
        rw [if_pos (by norm_num : (0 : ℝ) < 0.0031308)]
        norm_num
      · have hmax : max (b.get x y ch) 0 = b.get x y ch :=
          max_eq_left (not_lt.mp hneg)
        simp only [buffer_convert_linear_to_srgb, linear_to_srgb_small_pass,
          linear_to_srgb_formula, if_neg h2, if_pos (And.intro hm hs),
          if_neg hneg, hmax, if_pos hs]
        ring
    · have h1 : ¬ (ch < min 3 b.cLen ∧ b.get x y ch < 0.0031308) :=
        fun h => hs h.2
      have hge : (0 : ℝ) ≤ b.get x y ch :=
        le_trans (by norm_num) (not_lt.mp hs)
      have hmax : max (b.get x y ch) 0 = b.get x y ch := max_eq_left hge
      simp only [buffer_convert_linear_to_srgb, linear_to_srgb_small_pass,
        linear_to_srgb_formula, if_pos (And.intro hm hs), if_neg h1, hmax,
        if_neg hs]

/-- Witness for claim C1 at a concrete one-pixel RGBA buffer and channel 0. -/
theorem buffer_convert_channel_formulas_witness :
    (buffer_convert_srgb_to_linear ⟨1, 1, 4, fun _ _ _ => (1 : ℝ) / 2⟩).get 0 0 0
      = srgb_to_linear_formula ((1 : ℝ) / 2) ∧
    (buffer_convert_linear_to_srgb ⟨1, 1, 4, fun _ _ _ => (1 : ℝ) / 2⟩).get 0 0 0
      = linear_to_srgb_formula ((1 : ℝ) / 2) :=
  buffer_convert_channel_formulas ⟨1, 1, 4, fun _ _ _ => (1 : ℝ) / 2⟩ 0 0 0
    (by norm_num) (by norm_num)

/-- Claim C6: on a 4-channel pixel buffer both colorspace conversions leave
the alpha channel (channel index 3) of every pixel unchanged; only the
first three channels are converted. -/
theorem buffer_convert_preserves_alpha (b : PixelBuffer ℝ) (h4 : b.cLen = 4)
    (x y : Nat) :
    (buffer_convert_srgb_to_linear b).get x y 3 = b.get x y 3 ∧
    (buffer_convert_linear_to_srgb b).get x y 3 = b.get x y 3 := by
  have hm : ¬ (3 < min 3 b.cLen) := by
    rw [h4]; decide
  constructor
  · simp only [buffer_convert_srgb_to_linear, srgb_to_linear_small_pass,
      if_neg (fun h => hm (And.left h) : ¬ (3 < min 3 b.cLen ∧ ¬ (b.get x y 3 < 0.04045))),
      if_neg (fun h => hm (And.left h) : ¬ (3 < min 3 b.cLen ∧ b.get x y 3 < 0.04045))]
  · simp only [buffer_convert_linear_to_srgb, linear_to_srgb_small_pass,
      if_neg (fun h => hm (And.left h) : ¬ (3 < min 3 b.cLen ∧ ¬ (b.get x y 3 < 0.0031308))),
      if_neg (fun h => hm (And.left h) : ¬ (3 < min 3 b.cLen ∧ b.get x y 3 < 0.0031308))]

/-- Witness for claim C6 at a concrete one-pixel RGBA buffer. -/
theorem buffer_convert_preserves_alpha_witness :
    (buffer_convert_srgb_to_linear ⟨1, 1, 4, fun _ _ _ => (3 : ℝ) / 4⟩).get 0 0 3
      = (3 : ℝ) / 4 ∧
    (buffer_convert_linear_to_srgb ⟨1, 1, 4, fun _ _ _ => (3 : ℝ) / 4⟩).get 0 0 3
      = (3 : ℝ) / 4 :=
  buffer_convert_preserves_alpha ⟨1, 1, 4, fun _ _ _ => (3 : ℝ) / 4⟩ rfl 0 0

/-- Claim C10: write_pixel_buffer writes the flattened buffer into the
image pixels exactly when the buffer shape equals (width, height,
channels), and for every other shape it raises RuntimeError, leaving the
image pixels unchanged (the write is only reached in the matching branch). -/
theorem write_pixel_buffer_shape_check (img : Image) (b : PixelBuffer ℝ) :
    ((b.xLen, b.yLen, b.cLen) = (img.width, img.height, img.channels) →
      write_pixel_buffer img b = .ok { img with pixels := ravel b }) ∧
    ((b.xLen, b.yLen, b.cLen) ≠ (img.width, img.height, img.channels) →
      write_pixel_buffer img b
        = .error (.runtimeError "Buffer shape does not match image shape")) := by
  constructor
  · intro h
    simp only [write_pixel_buffer, if_pos h]
  · intro h
    simp only [write_pixel_buffer, if_neg h]

/-- Witness for claim C10: a matching 2 by 1 single-channel buffer is
written, a mismatched one raises. -/
theorem write_pixel_buffer_shape_check_witness :
    write_pixel_buffer ⟨2, 1, 1, "sRGB", [0, 0]⟩ ⟨2, 1, 1, fun _ _ _ => (1 : ℝ)⟩
      = .ok { (⟨2, 1, 1, "sRGB", [0, 0]⟩ : Image) with
              pixels := ravel (⟨2, 1, 1, fun _ _ _ => (1 : ℝ)⟩ : PixelBuffer ℝ) } ∧
    write_pixel_buffer ⟨2, 1, 1, "sRGB", [0, 0]⟩ ⟨1, 1, 1, fun _ _ _ => (1 : ℝ)⟩
      = .error (.runtimeError "Buffer shape does not match image shape") :=
  ⟨(write_pixel_buffer_shape_check ⟨2, 1, 1, "sRGB", [0, 0]⟩
      ⟨2, 1, 1, fun _ _ _ => (1 : ℝ)⟩).1 (by decide),
   (write_pixel_buffer_shape_check ⟨2, 1, 1, "sRGB", [0, 0]⟩
      ⟨1, 1, 1, fun _ _ _ => (1 : ℝ)⟩).2 (by decide)⟩

/-- Claim C9: when atlas_colorspace is linear and the image colorspace is
neither sRGB nor linear, get_pixel_buffer returns None rather than
raising; every error it can raise is a TypeError and comes either from the
sRGB-atlas branch with an unsupported image colorspace or from an
unsupported atlas colorspace. -/
theorem get_pixel_buffer_error_branches (img : Image) (atlas : String) :
    (atlas ∈ linear_colorspaces → img.colorspace ∉ supported_colorspaces →
      get_pixel_buffer img atlas = .ok none) ∧
    (∀ e, get_pixel_buffer img atlas = .error e →
      (∃ m, e = PyErr.typeError m) ∧
      ((atlas = "sRGB" ∧ img.colorspace ∉ supported_colorspaces) ∨
        atlas ∉ supported_colorspaces)) := by
  have hsup : ∀ s : String,
      s ∈ supported_colorspaces ↔ (s ∈ linear_colorspaces ∨ s = "sRGB") := by
    intro s
    simp [supported_colorspaces]
  constructor
  · intro ha hcs
    have hasr : atlas ≠ "sRGB" := by
      intro h
      rw [h] at ha
      revert ha
      decide
    have hcs1 : ¬ (img.colorspace ∈ linear_colorspaces) :=
      fun h => hcs ((hsup _).mpr (Or.inl h))
    have hcs2 : ¬ (img.colorspace = "sRGB") :=
      fun h => hcs ((hsup _).mpr (Or.inr h))
    simp only [get_pixel_buffer, if_neg hasr, if_pos ha, if_neg hcs1, if_neg hcs2]
  · intro e he
    by_cases h1 : atlas = "sRGB"
    · by_cases h2 : img.colorspace = "sRGB"
      · simp only [get_pixel_buffer, if_pos h1, if_pos h2] at he
        exact Except.noConfusion he
      · by_cases h3 : img.colorspace ∈ linear_colorspaces
        · simp only [get_pixel_buffer, if_pos h1, if_neg h2, if_pos h3] at he
          exact Except.noConfusion he
        · simp only [get_pixel_buffer, if_pos h1, if_neg h2, if_neg h3] at he
          injection he with h
          refine ⟨⟨"Unsupported image colorspace", h.symm⟩, Or.inl ⟨h1, ?_⟩⟩
          intro hmem
          rcases (hsup _).mp hmem with hl | hr
          · exact h3 hl
          · exact h2 hr
    · by_cases h4 : atlas ∈ linear_colorspaces
      · by_cases h5 : img.colorspace ∈ linear_colorspaces
        · simp only [get_pixel_buffer, if_neg h1, if_pos h4, if_pos h5] at he
          exact Except.noConfusion he
        · by_cases h6 : img.colorspace = "sRGB"
          · simp only [get_pixel_buffer, if_neg h1, if_pos h4, if_neg h5,
              if_pos h6] at he
            exact Except.noConfusion he
          · simp only [get_pixel_buffer, if_neg h1, if_pos h4, if_neg h5,
              if_neg h6] at he
            exact Except.noConfusion he
      · simp only [get_pixel_buffer, if_neg h1, if_neg h4] at he
        injection he with h
        refine ⟨⟨"Unsupported atlas colorspace", h.symm⟩, Or.inr ?_⟩
        intro hmem
        rcases (hsup _).mp hmem with hl | hr
        · exact h4 hl
        · exact h1 hr

/-- Witness for claim C9: a Linear atlas with an image in the unsupported
colorspace Filmic Log silently yields None. -/
theorem get_pixel_buffer_error_branches_witness :
    get_pixel_buffer ⟨1, 1, 4, "Filmic Log", [0, 0, 0, 1]⟩ "Linear" = .ok none :=
  (get_pixel_buffer_error_branches ⟨1, 1, 4, "Filmic Log", [0, 0, 0, 1]⟩ "Linear").1
    (by decide) (by decide)

/-- Claim C4 counter-evaluation: on a 2 by 2 single-channel sRGB image with
host pixels [0, 1, 2, 3] (bottom row first), the buffer of get_pixel_buffer
holds the value 1 at index (0, 0, 0), whereas the top-left host pixel
(column 0, top row) holds the value 2: index (0, 0) does not address the
top-left pixel, because the y-major flat data was reshaped x-major. -/
theorem get_pixel_buffer_not_top_left :
    bufferAt (get_pixel_buffer ⟨2, 2, 1, "sRGB", [0, 1, 2, 3]⟩ "sRGB") 0 0 0
      = some 1 ∧
    hostPixel ⟨2, 2, 1, "sRGB", [0, 1, 2, 3]⟩ 0 (2 - 1) 0 = 2 ∧
    (1 : ℝ) ≠ 2 := by
  refine ⟨?_, ?_, by norm_num⟩
  · simp [bufferAt, get_pixel_buffer, flipY, image_reshaped,
      List.getD_cons_succ, List.getD_cons_zero]
  · simp [hostPixel, List.getD_cons_succ, List.getD_cons_zero]

/-- Claim C3 counter-evaluation: for a 1 by 1 sRGB image resized to (2, 2),
get_resized_pixel_buffer completes without error but yields None instead of
the pixel buffer of the scaled copy (the Python function has no return
statement), while the copy has been removed again. -/
theorem get_resized_pixel_buffer_returns_none :
    get_resized_pixel_buffer (fun _ _ _ => [])
      ⟨1, 1, 4, "sRGB", [0, 0, 0, 1]⟩ (2, 2) = (.ok none, []) := by
  rfl

/-- Claim C2 counter-evaluation: pasting a 2 by 1 single-channel source
buffer into a 2 by 1 single-channel target at corner (1, 0), a partial
overlap hanging one pixel over the right edge, raises a broadcast
ValueError instead of copying the overlapping column, and fit_box leaves
the out-of-bounds right coordinate 3 unclipped because it clamps to
shape[0] + 1 = 3 rather than to shape[0] = 2. -/
theorem pixel_buffer_paste_broadcast_error :
    pixel_buffer_paste (⟨2, 1, 1, fun _ _ _ => (0 : Int)⟩ : PixelBuffer Int)
      (.ndarray3 ⟨2, 1, 1, fun _ _ _ => (7 : Int)⟩) [1, 0]
      = .error (.valueError "could not broadcast input array") ∧
    fit_box (⟨2, 1, 1, fun _ _ _ => (0 : Int)⟩ : PixelBuffer Int) ⟨1, 0, 3, 1⟩
      = ⟨1, 0, 3, 1⟩ ∧
    ((⟨2, 1, 1, fun _ _ _ => (0 : Int)⟩ : PixelBuffer Int).xLen : Int) < 3 := by
  refine ⟨by rfl, by rfl, by decide⟩

/-- Claim C5 counter-evaluation: with a 1 by 1 RGBA ubyte array and the
filepath a.png, numpy_pixels_to_file raises AttributeError at the read of
c_image_buffer.rect.content (a ctypes pointer attribute is named contents),
before the try block: the ImBuf state is returned unchanged and no file is
written, but equally no pixel data was ever saved. -/
theorem numpy_pixels_to_file_attribute_error :
    numpy_pixels_to_file (.ubyte ⟨1, 1, 4, fun _ _ _ => 0⟩) "a.png"
      ⟨1, 1, 32, 4, 0⟩
      = (.error (.attributeError "LP_c_uint object has no attribute content"),
         ⟨1, 1, 32, 4, 0⟩, false) := by
  rfl

/-- Helper: a successful single-pixel paste leaves every index outside the
destination rectangle, or at a channel at or beyond the pixel length,
unchanged. -/
theorem paste_pixel_vals_out {α : Type} [Inhabited α] (t : PixelBuffer α)
    (vals : List α) (box : BoxI) (x y c : Nat)
    (h : vals.length ≤ c ∨ ¬ inRect (dest_rect t box) x y) :
    onOk (paste_pixel_vals t vals box) (fun r => r.get x y c = t.get x y c) := by
  simp only [paste_pixel_vals]
  have hng : ¬ (inRect (dest_rect t box) x y ∧ c < min vals.length t.cLen) := by
    rintro ⟨hin, hc⟩
    rcases h with hge | hout
    · exact absurd hc (not_lt.mpr (le_trans (min_le_left _ _) hge))
    · exact hout hin
  split_ifs <;> simp only [onOk] <;> first
    | trivial
    | rw [if_neg hng]

/-- Helper: a successful sub-image paste leaves every index outside the
destination rectangle, or at a channel at or beyond the source channel
count, unchanged. -/
theorem paste_buffer_out {α : Type} (t b : PixelBuffer α) (box : BoxI)
    (x y c : Nat) (h : b.cLen ≤ c ∨ ¬ inRect (dest_rect t box) x y) :
    onOk (paste_buffer t b box) (fun r => r.get x y c = t.get x y c) := by
  simp only [paste_buffer]
  have hng : ¬ (inRect (dest_rect t box) x y ∧ c < b.cLen) := by
    rintro ⟨hin, hc⟩
    rcases h with hge | hout
    · exact absurd hc (not_lt.mpr hge)
    · exact hout hin
  split_ifs <;> simp only [onOk] <;> first
    | trivial
    | rw [if_neg hng]

/-- Claim C7: when the target has more channels than the paste source, a
completed paste leaves every target channel at or beyond the source
channel count unchanged inside the pasted region, and every target pixel
outside the pasted region unchanged in all channels. -/
theorem pixel_buffer_paste_preserves {α : Type} [Inhabited α]
    (t : PixelBuffer α) (s : PasteSource α) (cb : List Int)
    (hch : numSourceChannels s < t.cLen) (x y c : Nat)
    (h : numSourceChannels s ≤ c ∨ ¬ inRect (dest_rect t (paste_box s cb)) x y) :
    onOk (pixel_buffer_paste t s cb) (fun r => r.get x y c = t.get x y c) := by
  cases s with
  | ndarray3 b =>
    simp only [numSourceChannels] at h
    rcases cb with _ | ⟨l, cb⟩
    · simp only [pixel_buffer_paste, onOk]
    rcases cb with _ | ⟨u, cb⟩
    · simp only [pixel_buffer_paste, onOk]
    rcases cb with _ | ⟨r, cb⟩
    · simp only [pixel_buffer_paste]
      simp only [paste_box] at h
      exact paste_buffer_out t b _ x y c h
    rcases cb with _ | ⟨lo, cb⟩
    · simp only [pixel_buffer_paste, onOk]
    rcases cb with _ | ⟨e, cb⟩
    · simp only [pixel_buffer_paste]
      simp only [paste_box] at h
      exact paste_buffer_out t b _ x y c h
    · simp only [pixel_buffer_paste, onOk]
  | ndarray1 vals =>
    simp only [numSourceChannels] at h
    simp only [pixel_buffer_paste]
    split_ifs with h1
    · rcases cb with _ | ⟨l, cb⟩
      · simp only [onOk]
      rcases cb with _ | ⟨u, cb⟩
      · simp only [onOk]
      rcases cb with _ | ⟨r, cb⟩
      · simp only [onOk]
      rcases cb with _ | ⟨lo, cb⟩
      · simp only [onOk]
      rcases cb with _ | ⟨e, cb⟩
      · simp only [paste_box] at h
        exact paste_pixel_vals_out t vals _ x y c h
      · simp only [onOk]
    · simp only [onOk]
  | pyseq vals =>
    simp only [numSourceChannels] at h
    simp only [pixel_buffer_paste]
    split_ifs with h1
    · rcases cb with _ | ⟨l, cb⟩
      · simp only [onOk]
      rcases cb with _ | ⟨u, cb⟩
      · simp only [onOk]
      rcases cb with _ | ⟨r, cb⟩
      · simp only [onOk]
      rcases cb with _ | ⟨lo, cb⟩
      · simp only [onOk]
      rcases cb with _ | ⟨e, cb⟩
      · simp only [paste_box] at h
        exact paste_pixel_vals_out t vals _ x y c h
      · simp only [onOk]
    · simp only [onOk]

/-- Witness for claim C7: pasting the one-channel pixel [5] into a 2-channel
2 by 2 target over the box (0, 0, 1, 1) leaves channel 1 of pixel (1, 1)
unchanged. -/
theorem pixel_buffer_paste_preserves_witness :
    onOk (pixel_buffer_paste (⟨2, 2, 2, fun _ _ _ => (0 : Int)⟩ : PixelBuffer Int)
        (.pyseq [5]) [0, 0, 1, 1])
      (fun r => r.get 1 1 1
        = (⟨2, 2, 2, fun _ _ _ => (0 : Int)⟩ : PixelBuffer Int).get 1 1 1) :=
  pixel_buffer_paste_preserves ⟨2, 2, 2, fun _ _ _ => (0 : Int)⟩ (.pyseq [5])
    [0, 0, 1, 1] (by decide) 1 1 1 (Or.inl (by decide))

/-- Helper: looking up a key after a defaultdict append sees the appended
material exactly under its own key. -/
theorem dict_get_dict_append (d : List ((Nat × Bool) × List Material))
    (k k1 : Nat × Bool) (m : Material) :
    dict_get (dict_append d k m) k1
      = dict_get d k1 ++ (if k = k1 then [m] else []) := by
  induction d with
  | nil =>
    by_cases h : k = k1 <;> simp [dict_append, dict_get, h]
  | cons p rest ih =>
    obtain ⟨k0, g⟩ := p
    by_cases h0 : k0 = k
    · subst h0
      by_cases h1 : k0 = k1 <;> simp [dict_append, dict_get, h1]
    · by_cases h1 : k0 = k1
      · subst h1
        have hk : ¬ (k = k0) := fun h => h0 h.symm
        simp [dict_append, dict_get, h0, hk]
      · simp [dict_append, dict_get, h0, h1, ih]

/-- Helper: the group of key k after folding the whole list is the group it
had before together with the matching materials of the list, in order. -/
theorem dict_get_foldl (l : List Material)
    (d : List ((Nat × Bool) × List Material)) (k : Nat × Bool) :
    dict_get (l.foldl (fun d mat => dict_append d (material_sort_key mat) mat) d) k
      = dict_get d k ++ l.filter (fun m => decide (material_sort_key m = k)) := by
  induction l generalizing d with
  | nil => simp
  | cons m l ih =>
    simp only [List.foldl_cons, ih, dict_get_dict_append, List.filter_cons]
    by_cases hk : material_sort_key m = k
    · simp [hk]
    · simp [hk]

/-- Helper: appending under a key adds that key at the end when new and
keeps the key list otherwise. -/
theorem dict_keys_dict_append (d : List ((Nat × Bool) × List Material))
    (k : Nat × Bool) (m : Material) :
    dict_keys (dict_append d k m)
      = if k ∈ dict_keys d then dict_keys d else dict_keys d ++ [k] := by
  induction d with
  | nil => simp [dict_append, dict_keys]
  | cons p rest ih =>
    obtain ⟨k0, g⟩ := p
    by_cases h0 : k0 = k
    · subst h0
      simp [dict_append, dict_keys]
    · have hk : ¬ (k = k0) := fun h => h0 h.symm
      by_cases hm : k ∈ dict_keys rest <;>
        simp [dict_append, dict_keys, h0, hk, hm, ih]

/-- Helper: defaultdict appends keep the key list duplicate-free. -/
theorem dict_keys_nodup_append (d : List ((Nat × Bool) × List Material))
    (k : Nat × Bool) (m : Material) (h : (dict_keys d).Nodup) :
    (dict_keys (dict_append d k m)).Nodup := by
  rw [dict_keys_dict_append]
  split_ifs with hm
  · exact h
  · refine List.Nodup.append h (List.nodup_singleton _) ?_
    simp [List.disjoint_singleton, hm]

/-- Helper: key lists stay duplicate-free through the whole fold. -/
theorem dict_keys_nodup_foldl (l : List Material)
    (d : List ((Nat × Bool) × List Material)) (h : (dict_keys d).Nodup) :
    (dict_keys
      (l.foldl (fun d mat => dict_append d (material_sort_key mat) mat) d)).Nodup := by
  induction l generalizing d with
  | nil => exact h
  | cons m l ih =>
    exact ih _ (dict_keys_nodup_append d _ m h)

/-- Helper: a defaultdict append adds exactly the one material to the
grouped contents, up to permutation. -/
theorem dict_values_dict_append (d : List ((Nat × Bool) × List Material))
    (k : Nat × Bool) (m : Material) :
    (dict_values (dict_append d k m)).Perm (dict_values d ++ [m]) := by
  induction d with
  | nil => simp [dict_append, dict_values]
  | cons p rest ih =>
    obtain ⟨k0, g⟩ := p
    by_cases h0 : k0 = k
    · simp only [dict_append, if_pos h0, dict_values]
      rw [List.append_assoc, List.append_assoc]
      exact List.Perm.append_left g List.perm_append_comm
    · simp only [dict_append, if_neg h0, dict_values]
      rw [List.append_assoc]
      exact List.Perm.append_left g ih

/-- Helper: the grouped contents after the fold are a permutation of what
was there before followed by the folded list. -/
theorem dict_values_foldl (l : List Material)
    (d : List ((Nat × Bool) × List Material)) :
    (dict_values
        (l.foldl (fun d mat => dict_append d (material_sort_key mat) mat) d)).Perm
      (dict_values d ++ l) := by
  induction l generalizing d with
  | nil => simp
  | cons m l ih =>
    simp only [List.foldl_cons]
    refine ((ih _).trans ((dict_values_dict_append d _ m).append_right l)).trans ?_
    rw [List.append_assoc]
    simp

/-- Claim C8: sort_materials groups the input materials by the sort key
derived from the shader-graph source classification and the diffuse flag:
the group of every key is exactly the sublist of input materials with that
key, in input order, the keys are pairwise distinct, and the groups
together hold exactly the input materials, so every material of the list
occurs exactly once, in the group of its own key. -/
theorem sort_materials_groups (l : List Material) :
    (∀ k, dict_get (sort_materials l) k
        = l.filter (fun m => decide (material_sort_key m = k))) ∧
    (dict_keys (sort_materials l)).Nodup ∧
    (dict_values (sort_materials l)).Perm l := by
  refine ⟨fun k => ?_, ?_, ?_⟩
  · have h := dict_get_foldl l [] k
    simpa [sort_materials, dict_get] using h
  · exact dict_keys_nodup_foldl l [] (by simp [dict_keys])
  · have h := dict_values_foldl l []
    simpa [sort_materials, dict_values] using h
